import Mathlib

/-
Verification of the MyCare (AFib Care) daily-record application.

The development shallowly embeds the data model and the pure operations of
src/src/App.jsx: the daily entry record, the store of entries keyed by date
string, the danger-flag evaluation, the chart series, the CSV export, the
demo-data generator and the persistence loader.  JavaScript objects become
Lean structures, the store becomes a function from keys to optional entries,
and the browser environment (storage, JSON parsing, random jitter) is passed
in explicitly as parameters.
-/

namespace MyCare

/-! ## JavaScript number conversion

The app stores pulse and blood-pressure readings as free text and converts
them on demand with `Number(...)`.  We model `Number` on the integer strings
this app works with: surrounding whitespace is ignored, the empty (or
all-whitespace) string converts to `0`, an optional sign followed by decimal
digits converts to the signed value, and anything else is NaN, modelled as
`none`. -/

/-- Value of a list of decimal digit characters; `none` if the list is empty
or contains a non-digit. -/
def digitsVal : List Char → Option Nat
  | [] => none
  | c :: cs =>
    (c :: cs).foldl
      (fun acc ch => acc.bind fun a =>
        if ch.isDigit then some (10 * a + (ch.toNat - 48)) else none)
      (some 0)

/-- Strip leading and trailing whitespace from a character list (the
whitespace tolerance of the JavaScript `Number` conversion). -/
def jsStrTrim (l : List Char) : List Char :=
  ((l.dropWhile Char.isWhitespace).reverse.dropWhile Char.isWhitespace).reverse

/-- Model of the JavaScript `Number(s)` conversion on the integer strings this
app stores (`none` plays the role of NaN). -/
def jsNumber (s : String) : Option Int :=
  match jsStrTrim s.data with
  | [] => some 0
  | '-' :: rest => (digitsVal rest).map fun n => -(n : Int)
  | '+' :: rest => (digitsVal rest).map fun n => (n : Int)
  | l => (digitsVal l).map fun n => (n : Int)

/-- JavaScript truthiness of a converted number: NaN (`none`) and `0` are
falsy, every other number is truthy. -/
def jsTruthyNum : Option Int → Bool
  | none => false
  | some n => n != 0

/-! ## The daily entry record (shape of `defaultEntry()` in App.jsx) -/

structure AmMeds where
  multaq : Bool
  edoxaban : Bool
  bisoprolol : Bool
deriving DecidableEq

structure PmMeds where
  multaq : Bool
deriving DecidableEq

structure Meds where
  am : AmMeds
  pm : PmMeds
deriving DecidableEq

structure Entry where
  date : String
  pulse : String
  bpSys : String
  bpDia : String
  dizziness : Bool
  syncope : Bool
  dyspnea : Bool
  edema : Bool
  bleeding : Bool
  fatigue : String
  meds : Meds
  notes : String
deriving DecidableEq

/-- `defaultEntry()` from App.jsx; the current date string is a parameter
(the source reads the module-level `todayStr`). -/
def defaultEntry (todayStr : String) : Entry where
  date := todayStr
  pulse := ""
  bpSys := ""
  bpDia := ""
  dizziness := false
  syncope := false
  dyspnea := false
  edema := false
  bleeding := false
  fatigue := "0"
  meds := { am := { multaq := false, edoxaban := false, bisoprolol := false },
            pm := { multaq := false } }
  notes := ""

/-! ## Danger flags (`dangerFlags` memo in App.jsx) -/

def pulseMsg : String := "맥박 이상 (50 미만 또는 110 초과)"

def lowBPMsg : String := "저혈압 의심 (90/60 미만)"

def bleedingMsg : String := "출혈 보고됨"

def syncopeMsg : String := "실신/실신감 보고됨"

def dyspneaMsg : String := "호흡 곤란 보고됨"

/-- The danger-flag evaluation: transcribes the five `if (...) flags.push(...)`
statements, in source order.  `p && (p < 50 || p > 110)` becomes the truthiness
test plus the comparisons on the converted value (comparisons against NaN are
never reached because `p &&` short-circuits on NaN). -/
def dangerFlags (e : Entry) : List String :=
  (if jsTruthyNum (jsNumber e.pulse) ∧
      ((jsNumber e.pulse).getD 0 < 50 ∨ (jsNumber e.pulse).getD 0 > 110)
   then [pulseMsg] else []) ++
  (if jsTruthyNum (jsNumber e.bpSys) ∧ jsTruthyNum (jsNumber e.bpDia) ∧
      ((jsNumber e.bpSys).getD 0 < 90 ∨ (jsNumber e.bpDia).getD 0 < 60)
   then [lowBPMsg] else []) ++
  (if e.bleeding then [bleedingMsg] else []) ++
  (if e.syncope then [syncopeMsg] else []) ++
  (if e.dyspnea then [dyspneaMsg] else [])

/-! ## Helper lemmas -/

theorem mem_if_singleton {α : Type} {a b : α} {c : Prop} [Decidable c] :
    (a ∈ if c then [b] else []) ↔ c ∧ a = b := by
  split <;> simp_all

theorem sublist_if_append {α : Type} {c : Prop} [Decidable c] (a : α)
    {l L : List α} (h : l.Sublist L) :
    ((if c then [a] else []) ++ l).Sublist (a :: L) := by
  split
  · exact h.cons₂ a
  · exact h.cons a

theorem sublist_if_singleton {α : Type} {c : Prop} [Decidable c] (a : α) :
    (if c then [a] else []).Sublist [a] := by
  split
  · exact List.Sublist.refl _
  · exact List.nil_sublist _

/-! ## Concrete entries used in the claims -/

/-- Entry with systolic 80 and diastolic 70: the code reports suspected low
blood pressure for it (80 < 90) although the diastolic value is not below
60. -/
def cexC2 : Entry := { defaultEntry "" with bpSys := "80", bpDia := "70" }

/-- The entry of the danger-flag priority test: pulse 120, blood pressure
80/50, bleeding reported. -/
def cexC3 : Entry :=
  { defaultEntry "" with pulse := "120", bpSys := "80", bpDia := "50", bleeding := true }

/-- Entry whose pulse text parses to the number 0. -/
def zeroPulseEntry : Entry := { defaultEntry "" with pulse := "0" }

/-! ## Claims C2 and C3: the danger-flag evaluation -/

/-- C2, as stated, is false on the code: the claim requires the low-BP flag
exactly when systolic < 90 AND diastolic < 60, but the code raises the flag
for systolic 80 / diastolic 70, where the diastolic conjunct fails. -/
theorem lowBP_and_claim_false :
    ¬ (lowBPMsg ∈ dangerFlags cexC2 ↔
       (jsTruthyNum (jsNumber cexC2.bpSys) ∧ jsTruthyNum (jsNumber cexC2.bpDia) ∧
        (jsNumber cexC2.bpSys).getD 0 < 90 ∧ (jsNumber cexC2.bpDia).getD 0 < 60)) := by
  decide

/-- C2, amended: for every entry, the low-blood-pressure danger flag is
produced exactly when both the systolic and the diastolic texts parse to
truthy numbers and the systolic value is below 90 OR the diastolic value is
below 60. -/
theorem dangerFlags_lowBP_iff (e : Entry) :
    lowBPMsg ∈ dangerFlags e ↔
      (jsTruthyNum (jsNumber e.bpSys) ∧ jsTruthyNum (jsNumber e.bpDia) ∧
       ((jsNumber e.bpSys).getD 0 < 90 ∨ (jsNumber e.bpDia).getD 0 < 60)) := by
  have h1 : lowBPMsg ≠ pulseMsg := by decide
  have h3 : lowBPMsg ≠ bleedingMsg := by decide
  have h4 : lowBPMsg ≠ syncopeMsg := by decide
  have h5 : lowBPMsg ≠ dyspneaMsg := by decide
  simp [dangerFlags, mem_if_singleton, h1, h3, h4, h5]

/-- C3: danger flags come in the fixed priority order pulse, low BP, bleeding,
syncope, dyspnea (every output is a sublist of that fixed sequence); the pulse
flag appears only when the pulse text parses to a truthy number, and a parsed
pulse of 0 raises no pulse flag; the entry with pulse 120, BP 80/50 and
bleeding produces exactly the pulse, low-BP and bleeding messages in that
order. -/
theorem dangerFlags_priority :
    (∀ e : Entry,
      (dangerFlags e).Sublist [pulseMsg, lowBPMsg, bleedingMsg, syncopeMsg, dyspneaMsg]) ∧
    (∀ e : Entry, jsNumber e.pulse = some 0 → pulseMsg ∉ dangerFlags e) ∧
    (∀ e : Entry, pulseMsg ∈ dangerFlags e → jsTruthyNum (jsNumber e.pulse)) ∧
    dangerFlags cexC3 = [pulseMsg, lowBPMsg, bleedingMsg] := by
  have d2 : pulseMsg ≠ lowBPMsg := by decide
  have d3 : pulseMsg ≠ bleedingMsg := by decide
  have d4 : pulseMsg ≠ syncopeMsg := by decide
  have d5 : pulseMsg ≠ dyspneaMsg := by decide
  refine ⟨fun e => ?_, fun e h => ?_, fun e hmem => ?_, by decide⟩
  · unfold dangerFlags
    simp only [List.append_assoc]
    apply sublist_if_append
    apply sublist_if_append
    apply sublist_if_append
    apply sublist_if_append
    exact sublist_if_singleton _
  · simp [dangerFlags, mem_if_singleton, h, jsTruthyNum, d2, d3, d4, d5]
  · simp only [dangerFlags, List.mem_append, mem_if_singleton, d2, d3, d4, d5,
      and_false, false_or, or_false] at hmem
    exact hmem.1.1

/-- Witness for C3 at concrete entries: a zero-parsed pulse raises no pulse
flag, and membership of the pulse message implies a truthy pulse. -/
theorem dangerFlags_priority_witness :
    pulseMsg ∉ dangerFlags zeroPulseEntry ∧ jsTruthyNum (jsNumber cexC3.pulse) :=
  ⟨dangerFlags_priority.2.1 zeroPulseEntry (by decide),
   dangerFlags_priority.2.2.1 cexC3 (by decide)⟩

/-! ## The record store and its mutations

The store is the JavaScript object mapping date strings to entries, modelled
as a function from keys to optional entries.  The app keeps the store both in
React state and in persisted storage; `AppState` carries both, and every
mutation writes the same mapping to both (each mutation ends with
`setEntries(next); saveEntries(next)` in the source). -/

def Store : Type := String → Option Entry

def emptyStore : Store := fun _ => none

structure AppState where
  entries : Store
  persisted : Store

/-- The `entry` memo: `entries[date] || { ...defaultEntry(), date }`. -/
def getEntry (today : String) (st : AppState) (d : String) : Entry :=
  match st.entries d with
  | some e => e
  | none => { defaultEntry today with date := d }

/-- A partial update object, as passed to `updateEntry` in the source.  Each
field is optional; a present field replaces the whole field of the entry, as
the object spread `{ ...entry, ...patch }` does (in particular a present
`meds` replaces the whole nested `meds` record). -/
structure Patch where
  date : Option String := none
  pulse : Option String := none
  bpSys : Option String := none
  bpDia : Option String := none
  dizziness : Option Bool := none
  syncope : Option Bool := none
  dyspnea : Option Bool := none
  edema : Option Bool := none
  bleeding : Option Bool := none
  fatigue : Option String := none
  meds : Option Meds := none
  notes : Option String := none

/-- The shallow object spread `{ ...entry, ...patch }`. -/
def mergeEntry (e : Entry) (p : Patch) : Entry where
  date := p.date.getD e.date
  pulse := p.pulse.getD e.pulse
  bpSys := p.bpSys.getD e.bpSys
  bpDia := p.bpDia.getD e.bpDia
  dizziness := p.dizziness.getD e.dizziness
  syncope := p.syncope.getD e.syncope
  dyspnea := p.dyspnea.getD e.dyspnea
  edema := p.edema.getD e.edema
  bleeding := p.bleeding.getD e.bleeding
  fatigue := p.fatigue.getD e.fatigue
  meds := p.meds.getD e.meds
  notes := p.notes.getD e.notes

/-- `updateEntry(patch)` from App.jsx, with the selected date `d` explicit:
merges the patch into the current entry (or a fresh default), writes the
result back under the selected date, and persists the new mapping. -/
def updateEntry (today : String) (st : AppState) (d : String) (p : Patch) : AppState :=
  let next := mergeEntry (getEntry today st d) p
  let nextEntries : Store := fun k => if k = d then some next else st.entries k
  { entries := nextEntries, persisted := nextEntries }

/-- `resetToday()` from App.jsx, with the selected date `d` explicit: deletes
the key `d` from a copy of the store and persists the result. -/
def resetToday (st : AppState) (d : String) : AppState :=
  let nextEntries : Store := fun k => if k = d then none else st.entries k
  { entries := nextEntries, persisted := nextEntries }

/-- The morning-Multaq toggle handler from App.jsx: it patches `meds` with a
record built by spreading the current `meds` and the current `meds.am`, so
only `meds.am.multaq` changes. -/
def toggleAmMultaq (today : String) (st : AppState) (d : String) (v : Bool) : AppState :=
  let entry := getEntry today st d
  updateEntry today st d
    { meds := some { entry.meds with am := { entry.meds.am with multaq := v } } }

/-! ## Claim C1: upsert merges and preserves sibling medication fields -/

/-- C1: `updateEntry` leaves every other key unchanged and stores at the
selected date the merge of the prior entry (or a fresh default carrying the
selected date when the key is absent) with the patch; and the medication
patch the code builds for `meds.am.multaq` changes only that flag — in
particular `meds.am.edoxaban` keeps its prior value. -/
theorem updateEntry_upsert_merge :
    (∀ today st d p k, k ≠ d → (updateEntry today st d p).entries k = st.entries k) ∧
    (∀ today st d p,
      (updateEntry today st d p).entries d = some (mergeEntry (getEntry today st d) p)) ∧
    (∀ today st d, st.entries d = none →
      getEntry today st d = { defaultEntry today with date := d }) ∧
    (∀ today st d v, ∃ e,
      (toggleAmMultaq today st d v).entries d = some e ∧
      e.meds.am.multaq = v ∧
      e.meds.am.edoxaban = (getEntry today st d).meds.am.edoxaban ∧
      e.meds.am.bisoprolol = (getEntry today st d).meds.am.bisoprolol ∧
      e.meds.pm = (getEntry today st d).meds.pm) := by
  refine ⟨fun today st d p k hk => ?_, fun today st d p => ?_,
    fun today st d h => ?_, fun today st d v => ?_⟩
  · simp [updateEntry, hk]
  · simp [updateEntry]
  · simp [getEntry, h]
  · refine ⟨mergeEntry (getEntry today st d)
      { meds := some { (getEntry today st d).meds with
          am := { (getEntry today st d).meds.am with multaq := v } } }, ?_, rfl, rfl, rfl, rfl⟩
    simp [toggleAmMultaq, updateEntry]

/-- Witness for C1 at concrete inputs: updating one date leaves another date
untouched, and a missing key yields the fresh default entry. -/
theorem updateEntry_upsert_merge_witness :
    (updateEntry "2024-05-01" ⟨emptyStore, emptyStore⟩ "2024-05-01" {}).entries "2024-04-30"
        = emptyStore "2024-04-30" ∧
    getEntry "2024-05-01" ⟨emptyStore, emptyStore⟩ "2024-04-30"
        = { defaultEntry "2024-05-01" with date := "2024-04-30" } :=
  ⟨updateEntry_upsert_merge.1 "2024-05-01" ⟨emptyStore, emptyStore⟩ "2024-05-01" {}
      "2024-04-30" (by decide),
   updateEntry_upsert_merge.2.2.1 "2024-05-01" ⟨emptyStore, emptyStore⟩ "2024-04-30" rfl⟩

/-! ## Claim C7: remove deletes exactly the given date -/

/-- C7: removing date `d` right after upserting at `d` leaves the key absent
whatever the patch was, and `resetToday` deletes exactly the key `d`: `d`
maps to nothing afterwards and every other key is unchanged. -/
theorem remove_after_upsert :
    (∀ today st d p, (resetToday (updateEntry today st d p) d).entries d = none) ∧
    (∀ st d, (resetToday st d).entries d = none) ∧
    (∀ st d k, k ≠ d → (resetToday st d).entries k = st.entries k) := by
  refine ⟨fun today st d p => ?_, fun st d => ?_, fun st d k hk => ?_⟩
  · simp [resetToday]
  · simp [resetToday]
  · simp [resetToday, hk]

/-- Witness for C7 at concrete inputs. -/
theorem remove_after_upsert_witness :
    (resetToday ⟨emptyStore, emptyStore⟩ "2024-05-01").entries "2024-04-30"
      = emptyStore "2024-04-30" :=
  remove_after_upsert.2.2 ⟨emptyStore, emptyStore⟩ "2024-05-01" "2024-04-30" (by decide)

/-! ## Claim C4: loading persisted state never raises

`loadEntries()` reads the raw string under the storage key (`none` models a
missing key), parses it as JSON, and keeps the result only when it is a
truthy value of JavaScript type "object".  The JSON parser of the browser is
passed in as a function returning `Except`; a thrown parse error is the
`error` case and is swallowed by the `try/catch` of the source. -/

inductive Json where
  | null : Json
  | bool (b : Bool) : Json
  | num (n : Int) : Json
  | str (s : String) : Json
  | arr (elems : List Json) : Json
  | obj (fields : List (String × Json)) : Json

/-- JavaScript truthiness of a JSON value. -/
def jsTruthy : Json → Bool
  | .null => false
  | .bool b => b
  | .num n => n != 0
  | .str s => s ≠ ""
  | .arr _ => true
  | .obj _ => true

/-- Whether `typeof v === "object"` holds for the value (in JavaScript this is
true for objects, arrays and `null`). -/
def jsTypeofIsObject : Json → Bool
  | .null => true
  | .arr _ => true
  | .obj _ => true
  | _ => false

/-- The empty mapping `{}` returned on every failure path. -/
def emptyObj : Json := .obj []

/-- `loadEntries()` from App.jsx: `none` models a missing storage key; the
empty string is falsy, so `if (!raw) return {}` also catches it; a parse
error is caught and yields `{}`; a parsed value is kept only when
`obj && typeof obj === "object"` holds. -/
def loadEntries (raw : Option String) (parse : String → Except Unit Json) : Json :=
  match raw with
  | none => emptyObj
  | some s =>
    if s = "" then emptyObj
    else
      match parse s with
      | .error _ => emptyObj
      | .ok j => if jsTruthy j && jsTypeofIsObject j then j else emptyObj

/-- C4: `loadEntries` is total (it returns a value instead of propagating the
parse error) and returns the empty mapping when the key is missing, when the
stored string fails to parse, and when the parsed value is not an object
(including JSON `null`, whose JavaScript type is "object" but which is
falsy). -/
theorem loadEntries_recovers_empty :
    (∀ parse, loadEntries none parse = emptyObj) ∧
    (∀ s parse, parse s = .error () → loadEntries (some s) parse = emptyObj) ∧
    (∀ s parse j, parse s = .ok j → jsTypeofIsObject j = false →
      loadEntries (some s) parse = emptyObj) ∧
    (∀ s parse, parse s = .ok Json.null → loadEntries (some s) parse = emptyObj) := by
  refine ⟨fun parse => rfl, fun s parse h => ?_, fun s parse j h hobj => ?_,
    fun s parse h => ?_⟩
  · simp only [loadEntries]
    by_cases hs : s = ""
    · simp [hs]
    · simp [hs, h]
  · simp only [loadEntries]
    by_cases hs : s = ""
    · simp [hs]
    · simp [hs, h, hobj]
  · simp only [loadEntries]
    by_cases hs : s = ""
    · simp [hs]
    · simp [hs, h, jsTruthy]

/-- Witness for C4 at concrete inputs: a parser that throws, a parser
returning a non-object number, and one returning JSON `null` all produce the
empty mapping. -/
theorem loadEntries_recovers_empty_witness :
    loadEntries (some "not json") (fun _ => .error ()) = emptyObj ∧
    loadEntries (some "5") (fun _ => .ok (.num 5)) = emptyObj ∧
    loadEntries (some "null") (fun _ => .ok .null) = emptyObj :=
  ⟨loadEntries_recovers_empty.2.1 "not json" _ rfl,
   loadEntries_recovers_empty.2.2.1 "5" _ (.num 5) rfl rfl,
   loadEntries_recovers_empty.2.2.2 "null" _ rfl⟩

/-! ## The chart series (`daysData` memo in App.jsx)

`Object.values(entries).sort((a, b) => a.date.localeCompare(b.date))` is a
stable sort of the stored entries by date string; for the ASCII date strings
of this app `localeCompare` agrees with lexicographic comparison, modelled by
the `≤` order on `String`.  The store's value list is the input. -/

/-- Comparison used by the sort: `a.date.localeCompare(b.date) <= 0`. -/
def entryDateLE : Entry → Entry → Prop := fun a b => a.date ≤ b.date

instance : DecidableRel entryDateLE :=
  fun a b => inferInstanceAs (Decidable (a.date ≤ b.date))

instance : IsTotal Entry entryDateLE := ⟨fun a b => le_total a.date b.date⟩

instance : IsTrans Entry entryDateLE := ⟨fun _ _ _ hab hbc => le_trans hab hbc⟩

/-- The stable sort by date string. -/
def sortEntries (l : List Entry) : List Entry := List.insertionSort entryDateLE l

/-- Model of `s.slice(n)`: the characters of `s` from index `n` onward. -/
def strDrop (s : String) (n : Nat) : String := String.mk (s.data.drop n)

/-- `Number(x) || null`: the parsed number, or the null marker when the text
is empty, non-numeric, or parses to zero (NaN and 0 are both falsy). -/
def numOrNull (s : String) : Option Int :=
  match jsNumber s with
  | none => none
  | some n => if n = 0 then none else some n

/-- One element of the chart series. -/
structure SeriesPoint where
  date : String
  pulse : Option Int
  sys : Option Int
  dia : Option Int
deriving DecidableEq

/-- The per-entry projection of the `daysData` map. -/
def toPoint (e : Entry) : SeriesPoint where
  date := strDrop e.date 5
  pulse := numOrNull e.pulse
  sys := numOrNull e.bpSys
  dia := numOrNull e.bpDia

/-- `daysData` from App.jsx over the store's value list. -/
def daysData (l : List Entry) : List SeriesPoint := (sortEntries l).map toPoint

/-! ## Claim C5: the series is sorted and falls back to null markers -/

/-- C5: the series lists all entries (the sorted list is a permutation of the
input) in non-decreasing lexicographic date order, and each numeric field is
the parsed number of the entry's text with `none` exactly when the text fails
to parse or parses to zero; the empty text parses to zero and hence also
falls back to `none`.  All functions involved are total, so no input can
crash the computation. -/
theorem daysData_sorted_null_fallback :
    (∀ l : List Entry, List.Sorted entryDateLE (sortEntries l)) ∧
    (∀ l : List Entry, (sortEntries l).Perm l) ∧
    (∀ l : List Entry, daysData l = (sortEntries l).map toPoint) ∧
    (∀ s : String, numOrNull s = none ↔ (jsNumber s = none ∨ jsNumber s = some 0)) ∧
    jsNumber "" = some 0 ∧
    (∀ s n, jsNumber s = some n → n ≠ 0 → numOrNull s = some n) ∧
    (∀ e : Entry, (toPoint e).pulse = numOrNull e.pulse ∧
      (toPoint e).sys = numOrNull e.bpSys ∧ (toPoint e).dia = numOrNull e.bpDia) := by
  refine ⟨fun l => List.sorted_insertionSort entryDateLE l,
    fun l => List.perm_insertionSort entryDateLE l,
    fun l => rfl, fun s => ?_, by decide, fun s n h hn => ?_,
    fun e => ⟨rfl, rfl, rfl⟩⟩
  · unfold numOrNull
    rcases hj : jsNumber s with _ | n
    · simp
    · by_cases hn : n = 0 <;> simp [hn]
  · simp [numOrNull, h, hn]

/-- Witness for C5 at a concrete input: the text "72" parses to 72, which is
nonzero, so the series keeps the value 72. -/
theorem daysData_sorted_null_fallback_witness : numOrNull "72" = some 72 :=
  daysData_sorted_null_fallback.2.2.2.2.2.1 "72" 72 (by decide) (by decide)

/-! ## Claim C9: the series keeps only the MM-DD part of the date -/

/-- Entry dated 2023-11-05; its series date label is "11-05". -/
def cexC9a : Entry := { defaultEntry "" with date := "2023-11-05" }

/-- Entry dated 2024-11-05, one year after `cexC9a`; its series date label is
also "11-05". -/
def cexC9b : Entry := { defaultEntry "" with date := "2024-11-05" }

/-- C9: every element of the series carries the characters of some input
entry's date from index 5 onward (`e.date.slice(5)`), and this projection is
lossy: the two entries dated 2023-11-05 and 2024-11-05 have distinct dates but
identical series date labels, so the full date cannot be recovered from the
series output. -/
theorem daysData_date_slice :
    (∀ l : List Entry, ∀ pt ∈ daysData l, ∃ e, e ∈ l ∧ pt.date = strDrop e.date 5) ∧
    ((toPoint cexC9a).date = (toPoint cexC9b).date ∧ cexC9a.date ≠ cexC9b.date) := by
  refine ⟨fun l pt hpt => ?_, by decide, by decide⟩
  simp only [daysData, List.mem_map] at hpt
  obtain ⟨e, he, hpe⟩ := hpt
  exact ⟨e, (List.perm_insertionSort entryDateLE l).mem_iff.mp he, by rw [← hpe]; rfl⟩

/-- Witness for C9 at a concrete input: the series over the single entry dated
2023-11-05 yields a point whose date is the suffix "11-05" of some entry of
the input. -/
theorem daysData_date_slice_witness :
    ∃ e, e ∈ [cexC9a] ∧ (toPoint cexC9a).date = strDrop e.date 5 :=
  daysData_date_slice.1 [cexC9a] (toPoint cexC9a) (by decide)

/-! ## CSV export (`exportCSV` in App.jsx)

The export tolerates malformed stored entries: the four medication cells use
optional chaining (`e.meds?.am?.multaq`), which yields `undefined` — rendered
by `Array.join` as the empty string — when any level is missing, and the
notes cell uses `(e.notes || "")`.  The export therefore operates on a raw
entry shape in which the nested medication record and the notes may be
absent at every level. -/

structure AmMedsRaw where
  multaq : Option Bool
  edoxaban : Option Bool
  bisoprolol : Option Bool
deriving DecidableEq

structure PmMedsRaw where
  multaq : Option Bool
deriving DecidableEq

structure MedsRaw where
  am : Option AmMedsRaw
  pm : Option PmMedsRaw
deriving DecidableEq

/-- A stored entry as the CSV export reads it: fields the export accesses
directly are present, the optionally-chained ones may be missing. -/
structure CsvEntry where
  date : String
  pulse : String
  bpSys : String
  bpDia : String
  dizziness : Bool
  syncope : Bool
  dyspnea : Bool
  edema : Bool
  bleeding : Bool
  fatigue : String
  meds : Option MedsRaw
  notes : Option String
deriving DecidableEq

/-- `e.meds?.am?.multaq` and friends. -/
def medsAmMultaq (e : CsvEntry) : Option Bool := (e.meds.bind (·.am)).bind (·.multaq)

def medsAmEdoxaban (e : CsvEntry) : Option Bool := (e.meds.bind (·.am)).bind (·.edoxaban)

def medsAmBisoprolol (e : CsvEntry) : Option Bool := (e.meds.bind (·.am)).bind (·.bisoprolol)

def medsPmMultaq (e : CsvEntry) : Option Bool := (e.meds.bind (·.pm)).bind (·.multaq)

/-- How `Array.join` renders a boolean cell: its natural text form. -/
def jsBoolCell (b : Bool) : String := if b then "true" else "false"

/-- How `Array.join` renders an optionally-chained boolean cell: `undefined`
becomes the empty string. -/
def jsOptBoolCell : Option Bool → String
  | none => ""
  | some b => jsBoolCell b

/-- Model of `(e.notes || "").replace(/\n/g, " ")`: a missing or empty notes
value becomes the empty string, and every newline is replaced by a space. -/
def notesCell (notes : Option String) : String :=
  String.mk ((notes.getD "").data.map fun c => if c = '\n' then ' ' else c)

/-- The fixed header row of the export. -/
def csvHeader : List String :=
  ["date", "pulse", "bpSys", "bpDia", "dizziness", "syncope", "dyspnea",
   "edema", "bleeding", "fatigue", "meds_am_multaq", "meds_am_edoxaban",
   "meds_am_bisoprolol", "meds_pm_multaq", "notes"]

/-- One data row of the export, in source column order. -/
def csvRow (e : CsvEntry) : List String :=
  [e.date, e.pulse, e.bpSys, e.bpDia,
   jsBoolCell e.dizziness, jsBoolCell e.syncope, jsBoolCell e.dyspnea,
   jsBoolCell e.edema, jsBoolCell e.bleeding,
   e.fatigue,
   jsOptBoolCell (medsAmMultaq e), jsOptBoolCell (medsAmEdoxaban e),
   jsOptBoolCell (medsAmBisoprolol e), jsOptBoolCell (medsPmMultaq e),
   notesCell e.notes]

/-- The sort of the export: same date comparison as the chart series. -/
def csvDateLE : CsvEntry → CsvEntry → Prop := fun a b => a.date ≤ b.date

instance : DecidableRel csvDateLE :=
  fun a b => inferInstanceAs (Decidable (a.date ≤ b.date))

instance : IsTotal CsvEntry csvDateLE := ⟨fun a b => le_total a.date b.date⟩

instance : IsTrans CsvEntry csvDateLE := ⟨fun _ _ _ hab hbc => le_trans hab hbc⟩

def sortCsvEntries (l : List CsvEntry) : List CsvEntry := List.insertionSort csvDateLE l

/-- The row list of `exportCSV`: the header literal followed by the spread of
the sorted, row-mapped entries. -/
def exportRows (l : List CsvEntry) : List (List String) :=
  csvHeader :: (sortCsvEntries l).map csvRow

/-- `rows.map((r) => r.join(",")).join("\n")`: fields are comma-joined with no
quoting or escaping, rows newline-joined. -/
def exportCSV (l : List CsvEntry) : String :=
  String.intercalate "\n" ((exportRows l).map (String.intercalate ","))

/-! ## Claim C6: shape of the CSV export -/

/-- C6: the export has the fixed 15-column header first, then one row per
entry — so the row count is the entry count plus one — with the data rows
sorted by non-decreasing date (the sorted list is a permutation of the
store's entries); every data row has 15 fields; the last field of a row is
the notes text with each newline replaced by a single space; and the text is
the rows comma-joined and newline-joined with no quoting or escaping. -/
theorem exportCSV_shape :
    csvHeader.length = 15 ∧
    (∀ l : List CsvEntry, (exportRows l).length = l.length + 1) ∧
    (∀ l : List CsvEntry, (exportRows l).head? = some csvHeader) ∧
    (∀ l : List CsvEntry, List.Sorted csvDateLE (sortCsvEntries l)) ∧
    (∀ l : List CsvEntry, (sortCsvEntries l).Perm l) ∧
    (∀ e : CsvEntry, (csvRow e).length = 15) ∧
    (∀ b : Bool, jsBoolCell b = if b then "true" else "false") ∧
    (∀ e : CsvEntry, (csvRow e).getLast? = some (notesCell e.notes)) ∧
    (∀ l : List CsvEntry,
      exportCSV l = String.intercalate "\n" ((exportRows l).map (String.intercalate ","))) := by
  refine ⟨rfl, fun l => ?_, fun l => rfl,
    fun l => List.sorted_insertionSort csvDateLE l,
    fun l => List.perm_insertionSort csvDateLE l,
    fun e => rfl, fun b => rfl, fun e => rfl, fun l => rfl⟩
  simp [exportRows, sortCsvEntries, (List.perm_insertionSort csvDateLE l).length_eq]

/-! ## Claim C10: the export is total on malformed entries -/

/-- C10: a data row is produced for every entry, even one missing the `meds`
record, any of its nested parts, or the notes: the row always has its 15
fields, each medication cell whose optional chain is broken renders as the
empty string (in particular whenever `meds` itself is absent), and missing
notes render as the empty string. -/
theorem csvRow_total_missing :
    (∀ e : CsvEntry, (csvRow e).length = 15) ∧
    (∀ e : CsvEntry, e.meds = none →
      ((csvRow e)[10]? = some "" ∧ (csvRow e)[11]? = some "" ∧
       (csvRow e)[12]? = some "" ∧ (csvRow e)[13]? = some "")) ∧
    (∀ e : CsvEntry, medsAmMultaq e = none → (csvRow e)[10]? = some "") ∧
    (∀ e : CsvEntry, medsAmEdoxaban e = none → (csvRow e)[11]? = some "") ∧
    (∀ e : CsvEntry, medsAmBisoprolol e = none → (csvRow e)[12]? = some "") ∧
    (∀ e : CsvEntry, medsPmMultaq e = none → (csvRow e)[13]? = some "") ∧
    (∀ e : CsvEntry, e.notes = none → (csvRow e)[14]? = some "") := by
  refine ⟨fun e => rfl, fun e h => ?_, fun e h => ?_, fun e h => ?_,
    fun e h => ?_, fun e h => ?_, fun e h => ?_⟩
  · simp [csvRow, medsAmMultaq, medsAmEdoxaban, medsAmBisoprolol, medsPmMultaq,
      jsOptBoolCell, h]
  · simp [csvRow, jsOptBoolCell, h]
  · simp [csvRow, jsOptBoolCell, h]
  · simp [csvRow, jsOptBoolCell, h]
  · simp [csvRow, jsOptBoolCell, h]
  · simp [csvRow, notesCell, h]

/-- An entry lacking the whole medication record and the notes. -/
def cexC10 : CsvEntry where
  date := "2024-05-01"
  pulse := "70"
  bpSys := "120"
  bpDia := "80"
  dizziness := false
  syncope := false
  dyspnea := false
  edema := false
  bleeding := false
  fatigue := "0"
  meds := none
  notes := none

/-- Witness for C10 at a concrete malformed entry: all four medication cells
and the notes cell render as the empty string. -/
theorem csvRow_total_missing_witness :
    ((csvRow cexC10)[10]? = some "" ∧ (csvRow cexC10)[11]? = some "" ∧
     (csvRow cexC10)[12]? = some "" ∧ (csvRow cexC10)[13]? = some "") ∧
    (csvRow cexC10)[14]? = some "" :=
  ⟨csvRow_total_missing.2.1 cexC10 rfl, csvRow_total_missing.2.2.2.2.2.2 cexC10 rfl⟩

/-! ## Demo data (`fillDemo` in App.jsx)

`fillDemo` iterates `i = 27 .. 0`, computes the calendar date `i` days before
today with JavaScript `Date` arithmetic, and writes a generated entry under
that date string.  Calendar days are modelled by their day index (an
integer); `fmtDate` converts a day index to the local `YYYY-MM-DD` string the
source builds via `toISOString().slice(0, 10)`, using the standard
days-to-civil conversion.  The sinusoidal signal plus `Math.random()` jitter
of the generated values is floating-point and is passed in as an oracle
`rnd`; the claims about `fillDemo` concern only its keys, its replacement
semantics and its persistence. -/

/-- Convert a day index (day 0 = 1970-01-01) to a civil year/month/day
triple. -/
def civilFromDays (z0 : Int) : Int × Nat × Nat :=
  let z := z0 + 719468
  let era := Int.fdiv z 146097
  let doe := (z - era * 146097).toNat
  let yoe := (doe - doe / 1460 + doe / 36524 - doe / 146096) / 365
  let y := (yoe : Int) + era * 400
  let doy := doe - (365 * yoe + yoe / 4 - yoe / 100)
  let mp := (5 * doy + 2) / 153
  let d := doy - (153 * mp + 2) / 5 + 1
  let m := if mp < 10 then mp + 3 else mp - 9
  (y + (if m ≤ 2 then 1 else 0), m, d)

/-- Two-digit zero padding of month and day numbers. -/
def pad2 (n : Nat) : String := if n < 10 then "0" ++ toString n else toString n

/-- `fmtDate` from App.jsx on a day index: the local-calendar `YYYY-MM-DD`
string of that day. -/
def fmtDate (z : Int) : String :=
  let c := civilFromDays z
  toString c.1 ++ "-" ++ pad2 c.2.1 ++ "-" ++ pad2 c.2.2

/-- The non-deterministic part of one generated demo entry: the rounded
sinusoid-plus-jitter offsets of pulse and blood pressure and the random
symptom draws. -/
structure DemoRand where
  pulseJ : Int
  sysJ : Int
  diaJ : Int
  dizz : Bool
  bleed : Bool
  fat : Bool

/-- The entry `fillDemo` writes for loop index `i`: the default entry with
the date, the oscillating vitals (base values 70 / 120 / 78 as in the
source), the random symptom flags and all medications checked. -/
def demoEntry (todayStr : String) (today : Int) (rnd : Nat → DemoRand) (i : Nat) : Entry :=
  { defaultEntry todayStr with
      date := fmtDate (today - (i : Int))
      pulse := toString (70 + (rnd i).pulseJ)
      bpSys := toString (120 + (rnd i).sysJ)
      bpDia := toString (78 + (rnd i).diaJ)
      dizziness := (rnd i).dizz
      bleeding := (rnd i).bleed
      fatigue := if (rnd i).fat then "1" else "0"
      meds := { am := { multaq := true, edoxaban := true, bisoprolol := true },
                pm := { multaq := true } } }

/-- The date keys the generator writes: today and the 27 preceding calendar
days. -/
def demoDates (today : Int) : List String :=
  (List.range 28).map fun i : Nat => fmtDate (today - (i : Int))

/-- The mapping built by the `fillDemo` loop: a key holds the entry of the
loop index whose date it is.  The loop runs `i = 27` down to `0`, so when two
indices produced the same date string the one written last — the smallest —
would win; `find?` over the ascending range picks exactly that one. -/
def fillDemoMap (todayStr : String) (today : Int) (rnd : Nat → DemoRand) : Store :=
  fun k =>
    ((List.range 28).find? fun i : Nat => fmtDate (today - (i : Int)) == k).map
      (demoEntry todayStr today rnd)

/-- `fillDemo()` from App.jsx: builds the 28-day demo mapping, replaces the
in-memory store with it and persists it; the prior state is discarded. -/
def fillDemo (todayStr : String) (today : Int) (rnd : Nat → DemoRand)
    (_st : AppState) : AppState :=
  let map := fillDemoMap todayStr today rnd
  { entries := map, persisted := map }

/-! ## Claim C8: the demo generator -/

/-- C8: `fillDemo` produces the demo mapping independently of the prior state
(no prior key survives), persists it immediately, and its keys are exactly
the date strings of the 28 consecutive day indices ending at today; those day
indices are pairwise distinct, and whenever the 28 date strings are pairwise
distinct (true of the real calendar formatter) the keys are 28 distinct
strings, one per day index. -/
theorem fillDemo_demo_keys (todayStr : String) (today : Int) (rnd : Nat → DemoRand)
    (st : AppState) :
    ((fillDemo todayStr today rnd st).entries = fillDemoMap todayStr today rnd) ∧
    ((fillDemo todayStr today rnd st).persisted = (fillDemo todayStr today rnd st).entries) ∧
    (∀ st2, (fillDemo todayStr today rnd st).entries = (fillDemo todayStr today rnd st2).entries) ∧
    (demoDates today).length = 28 ∧
    ((List.range 28).map fun i : Nat => today - (i : Int)).Nodup ∧
    (∀ k, ((fillDemo todayStr today rnd st).entries k).isSome ↔ k ∈ demoDates today) ∧
    ((demoDates today).Nodup → ∀ i j : Nat, i < 28 → j < 28 →
      fmtDate (today - (i : Int)) = fmtDate (today - (j : Int)) → i = j) := by
  refine ⟨rfl, rfl, fun st2 => rfl, by simp [demoDates], ?_, fun k => ?_, ?_⟩
  · refine (List.nodup_range 28).map ?_
    intro a b hab
    simp only at hab
    omega
  · simp only [fillDemo, fillDemoMap, Option.isSome_map', List.find?_isSome,
      demoDates, List.mem_map, List.mem_range, beq_iff_eq]
  · intro hnd i j hi hj heq
    exact List.inj_on_of_nodup_map (by simpa [demoDates] using hnd)
      (List.mem_range.mpr hi) (List.mem_range.mpr hj) heq

/-- Witness for C8 at concrete inputs: today = day index 19857 (2024-05-14),
a constant jitter oracle; the 28 generated date strings are pairwise
distinct, which the theorem turns into key distinctness per index. -/
theorem fillDemo_demo_keys_witness :
    fmtDate ((19857 : Int) - ((3 : Nat) : Int)) = fmtDate ((19857 : Int) - ((3 : Nat) : Int))
      → (3 : Nat) = 3 :=
  fun h => (fillDemo_demo_keys "2024-05-14" 19857 (fun _ => ⟨0, 0, 0, false, false, false⟩)
    ⟨emptyStore, emptyStore⟩).2.2.2.2.2.2 (by decide) 3 3 (by decide) (by decide) h
